import Mathlib

/-!
Shallow embedding of the JaTango voice product agent (src/agent/agent.py).

The embedded code consists of:
- `supabase_insert_product` : payload construction and response normalization
  of the persistence (Supabase REST) insert;
- `get_seller_id_from_room` : the seller lookup over the room's remote
  participants;
- `ProductAssistant.create_product` and `ProductAssistant.add_product_to_show` :
  the two tool functions, with their session-local state
  (`_last_product_id`, `_last_product_name`).

External effects (the HTTP response and the RPC outcome) are passed in
explicitly as values; the record of outgoing calls (HTTP payloads, RPC calls)
is returned so that claims about what was sent can be stated.
-/

/-- Participant kind as used by the agent: LiveKit's
`ParticipantKind.PARTICIPANT_KIND_AGENT` versus any other kind. -/
inductive PKind where
  | agent
  | standard
deriving DecidableEq

/-- One entry of `room.remote_participants`: the identity key together with
the participant's kind. The mapping is modelled as a list in iteration
order. -/
structure RemoteParticipant where
  identity : String
  kind : PKind
deriving DecidableEq

/-- `get_seller_id_from_room`: scan remote participants in iteration order,
skip agents (`continue`), return the first remaining identity; `None` if no
such participant exists. -/
def get_seller_id_from_room : List RemoteParticipant → Option String
  | [] => none
  | p :: rest =>
    if p.kind = PKind.agent then get_seller_id_from_room rest
    else some p.identity

/-- The broadcaster scan inside `add_product_to_show`: iterate, and on the
first participant whose kind is not agent, record its identity and `break`. -/
def find_broadcaster_identity : List RemoteParticipant → Option String
  | [] => none
  | p :: rest =>
    if p.kind ≠ PKind.agent then some p.identity
    else find_broadcaster_identity rest

/-- Python truthiness test `not x` for `x : str | None`: true for `None` and
for the empty string. -/
def strOptFalsy : Option String → Bool
  | none => true
  | some s => s = ""

/-- Python `x or d` for `x : str | None`: the default is taken when `x` is
`None` or the empty string. -/
def py_or_string (o : Option String) (d : String) : String :=
  match o with
  | none => d
  | some s => if s = "" then d else s

/-- Python `dict.get(k, d)` on a string-valued JSON object (modelled as an
association list in key order). -/
def dict_get (o : List (String × String)) (k d : String) : String :=
  match o.lookup k with
  | some v => v
  | none => d

/-- The JSON payload of the Supabase insert, field for field. -/
structure ProductPayload where
  name : String
  price : ℚ
  weight : ℚ
  weight_unit : String
  quantity_in_stock : ℤ
  seller_id : String
  image : String
  description : String
  images : List String
  colors : List String
  sizes : List String
  variants : List String
deriving DecidableEq

/-- The payload built by `supabase_insert_product` from its arguments. -/
def insert_payload (seller_id name : String) (weight cost : ℚ)
    (quantity : ℤ) : ProductPayload :=
  { name := name
    price := cost
    weight := weight
    weight_unit := "oz"
    quantity_in_stock := quantity
    seller_id := seller_id
    image := ""
    description := name ++ " - added via voice"
    images := []
    colors := []
    sizes := []
    variants := [] }

/-- The JSON body of the persistence response: a single object or an ordered
sequence of objects (Supabase returns a list under
`Prefer: return=representation`). Objects are modelled as string-valued
association lists. -/
inductive InsertBody where
  | obj (o : List (String × String))
  | arr (os : List (List (String × String)))
deriving DecidableEq

/-- The HTTP outcome of the POST: a 2xx response with a JSON body, or a
non-2xx status (carrying the detail text of the `HTTPStatusError` that
`raise_for_status` raises). -/
inductive HttpResponse where
  | success (body : InsertBody)
  | failure (detail : String)
deriving DecidableEq

/-- The exceptions that can escape `supabase_insert_product`: the
`HTTPStatusError` from `raise_for_status`, or the `IndexError` from
`data[0]` on an empty list. -/
inductive InsertError where
  | httpStatus (detail : String)
  | indexError
deriving DecidableEq

/-- The text of the exception as interpolated by `f"... \x7bc e \x7d d"`. -/
def insertErrorText : InsertError → String
  | .httpStatus detail => detail
  | .indexError => "list index out of range"

/-- `supabase_insert_product`, given the HTTP outcome: `raise_for_status`
turns a non-2xx status into an exception; otherwise the body is normalized
by `data[0] if isinstance(data, list) else data` (so an empty list raises
`IndexError`). -/
def supabase_insert_product : HttpResponse → Except InsertError (List (String × String))
  | .failure detail => .error (.httpStatus detail)
  | .success (.obj o) => .ok o
  | .success (.arr []) => .error .indexError
  | .success (.arr (o :: _)) => .ok o

/-- Two-digit rendering of a number below 100, as produced for the cents
part of `f"\x7bc price:.2f\x7d"`. -/
def twoDigitFrac (n : Nat) : String :=
  if n < 10 then "0" ++ toString n else toString n

/-- `round(q * 100)` computed on the exact rational: `⌊100q + 1/2⌋`, written
with integer arithmetic on numerator and denominator. -/
def roundCents (q : ℚ) : ℤ :=
  Int.fdiv (200 * q.num + (q.den : ℤ)) (2 * (q.den : ℤ))

/-- Models Python's fixed-point formatting `f"\x7bc x:.2f\x7d"` on the exact
rational value: two digits after the decimal point, rounded to nearest. -/
def fmtFixed2 (q : ℚ) : String :=
  let c : ℤ := roundCents q
  if c < 0 then
    "-" ++ toString ((-c).toNat / 100) ++ "." ++ twoDigitFrac ((-c).toNat % 100)
  else
    toString (c.toNat / 100) ++ "." ++ twoDigitFrac (c.toNat % 100)

/-- Digits after the decimal point of the fraction `n / d` (with
`0 ≤ n < d`), at most `fuel` of them, trailing zeros dropped. -/
def fracDigitsAux : Nat → ℤ → ℤ → String
  | 0, _, _ => ""
  | fuel + 1, n, d =>
    if n = 0 then ""
    else
      let n10 := 10 * n
      let digit := Int.fdiv n10 d
      toString digit.toNat ++ fracDigitsAux fuel (n10 - digit * d) d

/-- Models Python's `str()` of a float value with a short decimal expansion,
as interpolated by `f"\x7bc weight\x7d oz"`: integer part, a decimal point, and
the fractional digits (`.0` when the value is integral). -/
def fmtFloat (q : ℚ) : String :=
  let sgn := if q < 0 then "-" else ""
  let n : ℤ := (q.num.natAbs : ℤ)
  let d : ℤ := (q.den : ℤ)
  let ip : ℤ := Int.fdiv n d
  let frac := fracDigitsAux 17 (n - ip * d) d
  sgn ++ toString ip.toNat ++ "." ++ (if frac = "" then "0" else frac)

/-- The success summary string returned by `create_product`. -/
def createSummary (name : String) (price weight : ℚ) (quantity : ℤ)
    (product_id : String) : String :=
  "Product created successfully. " ++ "Name: " ++ name ++ ", Price: $" ++
    fmtFixed2 price ++ ", Weight: " ++ fmtFloat weight ++ "oz, Quantity: " ++
    toString quantity ++ ". " ++ "Product ID: " ++ product_id

/-- The session-local state of `ProductAssistant`: `_last_product_id` and
`_last_product_name`, both initialized to `None`. -/
structure AgentState where
  last_product_id : Option String
  last_product_name : Option String
deriving DecidableEq

/-- Result of one `create_product` invocation: the returned string, the
state after the call, and the list of HTTP POST payloads sent. -/
structure CreateResult where
  reply : String
  state : AgentState
  httpCalls : List ProductPayload
deriving DecidableEq

/-- `ProductAssistant.create_product`, with the room snapshot and the HTTP
outcome passed explicitly. On the seller-lookup failure path no POST is
made; otherwise exactly one POST with the constructed payload is made, and
the response is normalized by `supabase_insert_product`. -/
def create_product (st : AgentState) (room : List RemoteParticipant)
    (resp : HttpResponse) (name : String) (weight price : ℚ)
    (quantity : ℤ) : CreateResult :=
  let seller_id := get_seller_id_from_room room
  if strOptFalsy seller_id then
    { reply := "Error: Could not determine seller identity."
      state := st
      httpCalls := [] }
  else
    let sid := seller_id.getD ""
    let calls := [insert_payload sid name weight price quantity]
    match supabase_insert_product resp with
    | .error e =>
      { reply := "Error creating product: " ++ insertErrorText e
        state := st
        httpCalls := calls }
    | .ok product =>
      let product_id := dict_get product "id" "unknown"
      { reply := createSummary name price weight quantity product_id
        state := { last_product_id := some product_id
                   last_product_name := some name }
        httpCalls := calls }

/-- Lower-case hexadecimal digit. -/
def hexDigitChar (n : Nat) : Char :=
  if n < 10 then Char.ofNat (48 + n) else Char.ofNat (87 + n)

/-- Escaping of one character inside a JSON string literal, as done by
Python's `json.dumps` with its default `ensure_ascii=True` (basic
multilingual plane). -/
def json_escape_char (c : Char) : String :=
  if c = '"' then "\\\""
  else if c = '\\' then "\\\\"
  else if c = '\n' then "\\n"
  else if c = '\t' then "\\t"
  else if c = '\r' then "\\r"
  else if c.toNat = 8 then "\\b"
  else if c.toNat = 12 then "\\f"
  else if c.toNat < 32 ∨ c.toNat ≥ 128 then
    "\\u" ++ String.mk [hexDigitChar (c.toNat / 4096 % 16),
      hexDigitChar (c.toNat / 256 % 16), hexDigitChar (c.toNat / 16 % 16),
      hexDigitChar (c.toNat % 16)]
  else String.singleton c

/-- JSON string-literal escaping of a whole string. -/
def json_escape (s : String) : String :=
  String.join (s.data.map json_escape_char)

/-- `json.dumps(\x7b"productId": product_id, "name": nm\x7d)`: a two-key JSON
object in insertion order with Python's default separators. -/
def json_dumps_product (product_id nm : String) : String :=
  "\x7b\"productId\": \"" ++ json_escape product_id ++ "\", \"name\": \"" ++
    json_escape nm ++ "\"\x7d"

/-- One call of `room.local_participant.perform_rpc`, with the arguments the
agent passes. -/
structure RpcCall where
  destination_identity : String
  method : String
  payload : String
  response_timeout : ℚ
deriving DecidableEq

/-- Outcome of the RPC: the peer's response string, or the exception detail
(timeout or delivery failure). -/
inductive RpcOutcome where
  | ok (response : String)
  | error (detail : String)
deriving DecidableEq

/-- Result of one `add_product_to_show` invocation: the returned string, the
state after the call, and the list of RPC calls issued. -/
structure ShowResult where
  reply : String
  state : AgentState
  rpcCalls : List RpcCall
deriving DecidableEq

/-- `ProductAssistant.add_product_to_show`, with the room snapshot and the
RPC outcome passed explicitly. The broadcaster is the first non-agent
participant; on the lookup failure path no RPC is issued; otherwise exactly
one RPC (method `addProductToShow`, 10 second timeout) is issued, and any
exception is converted to an error string. -/
def add_product_to_show (st : AgentState) (room : List RemoteParticipant)
    (product_id : String) (rpc : RpcOutcome) : ShowResult :=
  let broadcaster_identity := find_broadcaster_identity room
  if strOptFalsy broadcaster_identity then
    { reply := "Error: No broadcaster found in the room."
      state := st
      rpcCalls := [] }
  else
    let dest := broadcaster_identity.getD ""
    let payload := json_dumps_product product_id
      (py_or_string st.last_product_name "Product")
    let call : RpcCall :=
      { destination_identity := dest
        method := "addProductToShow"
        payload := payload
        response_timeout := 10 }
    match rpc with
    | .ok response =>
      { reply := "Product added to the live show carousel. " ++ response
        state := st
        rpcCalls := [call] }
    | .error detail =>
      { reply := "Error adding product to show: " ++ detail
        state := st
        rpcCalls := [call] }

/-- `sub` occurs contiguously inside `s`. -/
def strContains (s sub : String) : Prop :=
  ∃ a b : List Char, s.data = a ++ sub.data ++ b

/-- `pre` is a prefix of `s`. -/
def strStartsWith (s pre : String) : Prop :=
  ∃ t : List Char, s.data = pre.data ++ t

theorem data_append (a b : String) : (a ++ b).data = a.data ++ b.data := rfl

theorem strAppend_assoc (a b c : String) : a ++ b ++ c = a ++ (b ++ c) := by
  rcases a with ⟨la⟩; rcases b with ⟨lb⟩; rcases c with ⟨lc⟩
  show String.mk ((la ++ lb) ++ lc) = String.mk (la ++ (lb ++ lc))
  rw [List.append_assoc]

theorem strAppend_empty (a : String) : a ++ "" = a := by
  rcases a with ⟨la⟩
  show String.mk (la ++ []) = String.mk la
  rw [List.append_nil]

theorem strContains_intro (s sub a b : String) (h : s = a ++ sub ++ b) :
    strContains s sub :=
  ⟨a.data, b.data, by rw [h]; rfl⟩

theorem strStartsWith_append (w s rest : String)
    (h : ∃ t : List Char, w.data = s.data ++ t) :
    strStartsWith (w ++ rest) s := by
  obtain ⟨t, ht⟩ := h
  exact ⟨t ++ rest.data, by rw [data_append, ht, List.append_assoc]⟩

theorem seller_none_of_all_agents (room : List RemoteParticipant)
    (h : ∀ p ∈ room, p.kind = PKind.agent) :
    get_seller_id_from_room room = none := by
  induction room with
  | nil => rfl
  | cons p rest ih =>
    have hp : p.kind = PKind.agent := h p (List.mem_cons_self p rest)
    simp only [get_seller_id_from_room, hp, if_pos]
    exact ih fun q hq => h q (List.mem_cons_of_mem p hq)

theorem broadcaster_none_of_all_agents (room : List RemoteParticipant)
    (h : ∀ p ∈ room, p.kind = PKind.agent) :
    find_broadcaster_identity room = none := by
  induction room with
  | nil => rfl
  | cons p rest ih =>
    have hp : p.kind = PKind.agent := h p (List.mem_cons_self p rest)
    simp only [find_broadcaster_identity, hp]
    simp only [ne_eq, not_true_eq_false, if_false]
    exact ih fun q hq => h q (List.mem_cons_of_mem p hq)

theorem dict_get_id_ne_empty (o : List (String × String))
    (h : o.lookup "id" ≠ some "") : dict_get o "id" "unknown" ≠ "" := by
  unfold dict_get
  cases hl : o.lookup "id" with
  | none => decide
  | some v =>
    intro hv
    exact h (by rw [hl]; exact congrArg some (show v = "" from hv))

/-- Claim C1: for valid inputs (weight>0, price≥0, quantity≥0), when the
persistence call succeeds (2xx, body normalizing to an object whose id, if
present, is non-empty), `create_product` returns a summary containing the
exact name, the price formatted to two decimals, the weight, the quantity
and a non-empty product id, and sets `last_product_id`/`last_product_name`
to the created id and the given name. -/
theorem create_product_valid_summary (st : AgentState)
    (room : List RemoteParticipant) (body : InsertBody) (name : String)
    (weight price : ℚ) (quantity : ℤ) (o : List (String × String))
    (hw : 0 < weight) (hp : 0 ≤ price) (hq : 0 ≤ quantity)
    (hseller : strOptFalsy (get_seller_id_from_room room) = false)
    (hnorm : supabase_insert_product (HttpResponse.success body) = Except.ok o)
    (hid : o.lookup "id" ≠ some "") :
    strContains (create_product st room (HttpResponse.success body) name
      weight price quantity).reply name ∧
    strContains (create_product st room (HttpResponse.success body) name
      weight price quantity).reply (fmtFixed2 price) ∧
    strContains (create_product st room (HttpResponse.success body) name
      weight price quantity).reply (fmtFloat weight) ∧
    strContains (create_product st room (HttpResponse.success body) name
      weight price quantity).reply (toString quantity) ∧
    ∃ pid : String, pid ≠ "" ∧
      strContains (create_product st room (HttpResponse.success body) name
        weight price quantity).reply ("Product ID: " ++ pid) ∧
      (create_product st room (HttpResponse.success body) name weight price
        quantity).state.last_product_id = some pid ∧
      (create_product st room (HttpResponse.success body) name weight price
        quantity).state.last_product_name = some name := by
  have hres : create_product st room (HttpResponse.success body) name weight
      price quantity =
      { reply := createSummary name price weight quantity
          (dict_get o "id" "unknown")
        state := { last_product_id := some (dict_get o "id" "unknown")
                   last_product_name := some name }
        httpCalls := [insert_payload
          ((get_seller_id_from_room room).getD "") name weight price
          quantity] } := by
    simp [create_product, hseller, hnorm]
  rw [hres]
  refine ⟨?_, ?_, ?_, ?_, dict_get o "id" "unknown",
    dict_get_id_ne_empty o hid, ?_, rfl, rfl⟩
  · exact strContains_intro _ name
      ("Product created successfully. " ++ "Name: ")
      (", Price: $" ++ fmtFixed2 price ++ ", Weight: " ++ fmtFloat weight ++
        "oz, Quantity: " ++ toString quantity ++ ". " ++ "Product ID: " ++
        dict_get o "id" "unknown")
      (by simp only [createSummary, strAppend_assoc])
  · exact strContains_intro _ (fmtFixed2 price)
      ("Product created successfully. " ++ "Name: " ++ name ++ ", Price: $")
      (", Weight: " ++ fmtFloat weight ++ "oz, Quantity: " ++
        toString quantity ++ ". " ++ "Product ID: " ++
        dict_get o "id" "unknown")
      (by simp only [createSummary, strAppend_assoc])
  · exact strContains_intro _ (fmtFloat weight)
      ("Product created successfully. " ++ "Name: " ++ name ++ ", Price: $" ++
        fmtFixed2 price ++ ", Weight: ")
      ("oz, Quantity: " ++ toString quantity ++ ". " ++ "Product ID: " ++
        dict_get o "id" "unknown")
      (by simp only [createSummary, strAppend_assoc])
  · exact strContains_intro _ (toString quantity)
      ("Product created successfully. " ++ "Name: " ++ name ++ ", Price: $" ++
        fmtFixed2 price ++ ", Weight: " ++ fmtFloat weight ++
        "oz, Quantity: ")
      (". " ++ "Product ID: " ++ dict_get o "id" "unknown")
      (by simp only [createSummary, strAppend_assoc])
  · exact strContains_intro _ ("Product ID: " ++ dict_get o "id" "unknown")
      ("Product created successfully. " ++ "Name: " ++ name ++ ", Price: $" ++
        fmtFixed2 price ++ ", Weight: " ++ fmtFloat weight ++
        "oz, Quantity: " ++ toString quantity ++ ". ")
      ""
      (by simp only [createSummary, strAppend_assoc, strAppend_empty])

theorem create_product_valid_summary_witness :
    strContains (create_product ⟨none, none⟩
      [⟨"seller1", PKind.standard⟩]
      (HttpResponse.success (InsertBody.obj [("id", "p1")]))
      "Widget" 2 5 3).reply "Widget" ∧
    strContains (create_product ⟨none, none⟩
      [⟨"seller1", PKind.standard⟩]
      (HttpResponse.success (InsertBody.obj [("id", "p1")]))
      "Widget" 2 5 3).reply (fmtFixed2 5) ∧
    strContains (create_product ⟨none, none⟩
      [⟨"seller1", PKind.standard⟩]
      (HttpResponse.success (InsertBody.obj [("id", "p1")]))
      "Widget" 2 5 3).reply (fmtFloat 2) ∧
    strContains (create_product ⟨none, none⟩
      [⟨"seller1", PKind.standard⟩]
      (HttpResponse.success (InsertBody.obj [("id", "p1")]))
      "Widget" 2 5 3).reply (toString (3 : ℤ)) ∧
    ∃ pid : String, pid ≠ "" ∧
      strContains (create_product ⟨none, none⟩
        [⟨"seller1", PKind.standard⟩]
        (HttpResponse.success (InsertBody.obj [("id", "p1")]))
        "Widget" 2 5 3).reply ("Product ID: " ++ pid) ∧
      (create_product ⟨none, none⟩ [⟨"seller1", PKind.standard⟩]
        (HttpResponse.success (InsertBody.obj [("id", "p1")]))
        "Widget" 2 5 3).state.last_product_id = some pid ∧
      (create_product ⟨none, none⟩ [⟨"seller1", PKind.standard⟩]
        (HttpResponse.success (InsertBody.obj [("id", "p1")]))
        "Widget" 2 5 3).state.last_product_name = some "Widget" :=
  create_product_valid_summary ⟨none, none⟩ [⟨"seller1", PKind.standard⟩]
    (InsertBody.obj [("id", "p1")]) "Widget" 2 5 3 [("id", "p1")]
    (by decide) (by decide) (by decide) (by decide) rfl (by decide)

/-- Claim C2: if the persistence endpoint returns a non-2xx HTTP status,
`create_product` returns a string beginning with "Error creating product:"
and leaves `last_product_id`/`last_product_name` (the whole session state)
unchanged. -/
theorem create_product_http_error_keeps_state (st : AgentState)
    (room : List RemoteParticipant) (name : String) (weight price : ℚ)
    (quantity : ℤ) (detail : String)
    (hseller : strOptFalsy (get_seller_id_from_room room) = false) :
    strStartsWith (create_product st room (HttpResponse.failure detail) name
      weight price quantity).reply "Error creating product:" ∧
    (create_product st room (HttpResponse.failure detail) name weight price
      quantity).state = st := by
  have hres : create_product st room (HttpResponse.failure detail) name
      weight price quantity =
      { reply := "Error creating product: " ++ detail
        state := st
        httpCalls := [insert_payload
          ((get_seller_id_from_room room).getD "") name weight price
          quantity] } := by
    simp [create_product, hseller, supabase_insert_product, insertErrorText]
  rw [hres]
  exact ⟨strStartsWith_append "Error creating product: "
    "Error creating product:" detail ⟨[' '], by decide⟩, rfl⟩

theorem create_product_http_error_keeps_state_witness :
    strStartsWith (create_product ⟨some "old-id", some "OldName"⟩
      [⟨"seller1", PKind.standard⟩]
      (HttpResponse.failure "Server error 500 for url") "Widget" 2 5 3).reply
      "Error creating product:" ∧
    (create_product ⟨some "old-id", some "OldName"⟩
      [⟨"seller1", PKind.standard⟩]
      (HttpResponse.failure "Server error 500 for url") "Widget" 2 5 3).state
      = ⟨some "old-id", some "OldName"⟩ :=
  create_product_http_error_keeps_state ⟨some "old-id", some "OldName"⟩
    [⟨"seller1", PKind.standard⟩] "Widget" 2 5 3
    "Server error 500 for url" (by decide)

/-- Claim C3: in a room with no non-agent remote participant (empty or
agent-only), `create_product` returns exactly
"Error: Could not determine seller identity." and performs no network call
(no POST payload is sent). -/
theorem create_product_no_seller (st : AgentState)
    (room : List RemoteParticipant) (resp : HttpResponse) (name : String)
    (weight price : ℚ) (quantity : ℤ)
    (hroom : ∀ p ∈ room, p.kind = PKind.agent) :
    (create_product st room resp name weight price quantity).reply =
      "Error: Could not determine seller identity." ∧
    (create_product st room resp name weight price quantity).httpCalls = [] ∧
    (create_product st room resp name weight price quantity).state = st := by
  have hn : get_seller_id_from_room room = none :=
    seller_none_of_all_agents room hroom
  simp [create_product, hn, strOptFalsy]

theorem create_product_no_seller_witness :
    (create_product ⟨none, none⟩ []
      (HttpResponse.success (InsertBody.obj [("id", "p1")]))
      "Widget" 2 5 3).reply =
      "Error: Could not determine seller identity." ∧
    (create_product ⟨none, none⟩ []
      (HttpResponse.success (InsertBody.obj [("id", "p1")]))
      "Widget" 2 5 3).httpCalls = [] ∧
    (create_product ⟨none, none⟩ []
      (HttpResponse.success (InsertBody.obj [("id", "p1")]))
      "Widget" 2 5 3).state = ⟨none, none⟩ :=
  create_product_no_seller ⟨none, none⟩ []
    (HttpResponse.success (InsertBody.obj [("id", "p1")])) "Widget" 2 5 3
    (by simp)

/-- Claim C4, counterexample: a 2xx response whose body is an object without
an "id" field does NOT make the client fail — `supabase_insert_product`
returns the object unchanged, and `create_product` reports success with the
fabricated placeholder id "unknown" (stored into the session state). -/
theorem supabase_missing_id_counterexample :
    supabase_insert_product (HttpResponse.success (InsertBody.obj [])) =
      Except.ok [] ∧
    (create_product ⟨none, none⟩ [⟨"seller1", PKind.standard⟩]
      (HttpResponse.success (InsertBody.obj [])) "Widget" 2 5 3).reply =
      "Product created successfully. Name: Widget, Price: $5.00, Weight: 2.0oz, Quantity: 3. Product ID: unknown" ∧
    (create_product ⟨none, none⟩ [⟨"seller1", PKind.standard⟩]
      (HttpResponse.success (InsertBody.obj [])) "Widget" 2 5
      3).state.last_product_id = some "unknown" := by
  refine ⟨rfl, ?_, rfl⟩
  decide

/-- Claim C4, amended: a 2xx body that is an empty sequence makes the client
raise (so `create_product` returns an "Error creating product:" string and
keeps the state); a 2xx body that is an object without an "id" field does
not make the client fail: `create_product` reports success with the
placeholder id "unknown". -/
theorem supabase_malformed_response (st : AgentState)
    (room : List RemoteParticipant) (name : String) (weight price : ℚ)
    (quantity : ℤ) (o : List (String × String))
    (hseller : strOptFalsy (get_seller_id_from_room room) = false)
    (ho : o.lookup "id" = none) :
    (supabase_insert_product (HttpResponse.success (InsertBody.arr [])) =
      Except.error InsertError.indexError ∧
     strStartsWith (create_product st room
       (HttpResponse.success (InsertBody.arr [])) name weight price
       quantity).reply "Error creating product:" ∧
     (create_product st room (HttpResponse.success (InsertBody.arr [])) name
       weight price quantity).state = st) ∧
    (supabase_insert_product (HttpResponse.success (InsertBody.obj o)) =
      Except.ok o ∧
     (create_product st room (HttpResponse.success (InsertBody.obj o)) name
       weight price quantity).reply =
       createSummary name price weight quantity "unknown" ∧
     (create_product st room (HttpResponse.success (InsertBody.obj o)) name
       weight price quantity).state.last_product_id = some "unknown") := by
  have hempty : create_product st room
      (HttpResponse.success (InsertBody.arr [])) name weight price quantity =
      { reply := "Error creating product: " ++ "list index out of range"
        state := st
        httpCalls := [insert_payload
          ((get_seller_id_from_room room).getD "") name weight price
          quantity] } := by
    simp [create_product, hseller, supabase_insert_product, insertErrorText]
  have hobj : create_product st room
      (HttpResponse.success (InsertBody.obj o)) name weight price quantity =
      { reply := createSummary name price weight quantity "unknown"
        state := { last_product_id := some "unknown"
                   last_product_name := some name }
        httpCalls := [insert_payload
          ((get_seller_id_from_room room).getD "") name weight price
          quantity] } := by
    simp [create_product, hseller, supabase_insert_product, dict_get, ho]
  refine ⟨⟨rfl, ?_, ?_⟩, rfl, ?_, ?_⟩
  · rw [hempty]
    exact strStartsWith_append "Error creating product: "
      "Error creating product:" "list index out of range" ⟨[' '], by decide⟩
  · rw [hempty]
  · rw [hobj]
  · rw [hobj]

theorem supabase_malformed_response_witness :
    (supabase_insert_product (HttpResponse.success (InsertBody.arr [])) =
      Except.error InsertError.indexError ∧
     strStartsWith (create_product ⟨none, none⟩
       [⟨"seller1", PKind.standard⟩]
       (HttpResponse.success (InsertBody.arr [])) "Widget" 2 5
       3).reply "Error creating product:" ∧
     (create_product ⟨none, none⟩ [⟨"seller1", PKind.standard⟩]
       (HttpResponse.success (InsertBody.arr [])) "Widget" 2 5 3).state =
       ⟨none, none⟩) ∧
    (supabase_insert_product
      (HttpResponse.success (InsertBody.obj [("name", "Widget")])) =
      Except.ok [("name", "Widget")] ∧
     (create_product ⟨none, none⟩ [⟨"seller1", PKind.standard⟩]
       (HttpResponse.success (InsertBody.obj [("name", "Widget")]))
       "Widget" 2 5 3).reply =
       createSummary "Widget" 5 2 3 "unknown" ∧
     (create_product ⟨none, none⟩ [⟨"seller1", PKind.standard⟩]
       (HttpResponse.success (InsertBody.obj [("name", "Widget")]))
       "Widget" 2 5 3).state.last_product_id = some "unknown") :=
  supabase_malformed_response ⟨none, none⟩ [⟨"seller1", PKind.standard⟩]
    "Widget" 2 5 3 [("name", "Widget")] (by decide) (by decide)

/-- Claim C5, counterexample: the payload `create_product` sends does NOT
carry a blank description suffix — the description of the payload for name
"Widget" is "Widget - added via voice", which carries text beyond the
product fields. -/
theorem insert_payload_description_counterexample :
    (create_product ⟨none, none⟩ [⟨"seller1", PKind.standard⟩]
      (HttpResponse.success (InsertBody.obj [("id", "p1")]))
      "Widget" 2 5 3).httpCalls = [insert_payload "seller1" "Widget" 2 5 3] ∧
    (insert_payload "seller1" "Widget" 2 5 3).description =
      "Widget - added via voice" ∧
    (insert_payload "seller1" "Widget" 2 5 3).description ≠ "Widget" :=
  ⟨by decide, rfl, by decide⟩

/-- Claim C5, amended: every `create_product` invocation that resolves a
seller sends exactly one JSON payload merging the caller-supplied fields
(name, price, weight, quantity_in_stock, seller_id) with the fixed defaults
weight_unit "oz", image "", empty images/colors/sizes/variants — and a
description equal to the name followed by the fixed suffix
" - added via voice". -/
theorem create_product_payload_fields (st : AgentState)
    (room : List RemoteParticipant) (resp : HttpResponse) (name : String)
    (weight price : ℚ) (quantity : ℤ)
    (hseller : strOptFalsy (get_seller_id_from_room room) = false) :
    (create_product st room resp name weight price quantity).httpCalls =
      [insert_payload ((get_seller_id_from_room room).getD "") name weight
        price quantity] ∧
    (insert_payload ((get_seller_id_from_room room).getD "") name weight
      price quantity).name = name ∧
    (insert_payload ((get_seller_id_from_room room).getD "") name weight
      price quantity).price = price ∧
    (insert_payload ((get_seller_id_from_room room).getD "") name weight
      price quantity).weight = weight ∧
    (insert_payload ((get_seller_id_from_room room).getD "") name weight
      price quantity).weight_unit = "oz" ∧
    (insert_payload ((get_seller_id_from_room room).getD "") name weight
      price quantity).quantity_in_stock = quantity ∧
    (insert_payload ((get_seller_id_from_room room).getD "") name weight
      price quantity).seller_id = (get_seller_id_from_room room).getD "" ∧
    (insert_payload ((get_seller_id_from_room room).getD "") name weight
      price quantity).image = "" ∧
    (insert_payload ((get_seller_id_from_room room).getD "") name weight
      price quantity).description = name ++ " - added via voice" ∧
    (insert_payload ((get_seller_id_from_room room).getD "") name weight
      price quantity).images = [] ∧
    (insert_payload ((get_seller_id_from_room room).getD "") name weight
      price quantity).colors = [] ∧
    (insert_payload ((get_seller_id_from_room room).getD "") name weight
      price quantity).sizes = [] ∧
    (insert_payload ((get_seller_id_from_room room).getD "") name weight
      price quantity).variants = [] := by
  refine ⟨?_, rfl, rfl, rfl, rfl, rfl, rfl, rfl, rfl, rfl, rfl, rfl, rfl⟩
  cases h : supabase_insert_product resp with
  | error e => simp [create_product, hseller, h]
  | ok o => simp [create_product, hseller, h]

theorem create_product_payload_fields_witness :
    (create_product ⟨none, none⟩ [⟨"seller1", PKind.standard⟩]
      (HttpResponse.success (InsertBody.obj [("id", "p1")]))
      "Widget" 2 5 3).httpCalls =
      [insert_payload
        ((get_seller_id_from_room
          [⟨"seller1", PKind.standard⟩]).getD "") "Widget" 2 5 3] ∧
    (insert_payload ((get_seller_id_from_room
      [⟨"seller1", PKind.standard⟩]).getD "") "Widget" 2 5 3).name =
      "Widget" ∧
    (insert_payload ((get_seller_id_from_room
      [⟨"seller1", PKind.standard⟩]).getD "") "Widget" 2 5 3).price = 5 ∧
    (insert_payload ((get_seller_id_from_room
      [⟨"seller1", PKind.standard⟩]).getD "") "Widget" 2 5 3).weight = 2 ∧
    (insert_payload ((get_seller_id_from_room
      [⟨"seller1", PKind.standard⟩]).getD "") "Widget" 2 5 3).weight_unit =
      "oz" ∧
    (insert_payload ((get_seller_id_from_room
      [⟨"seller1", PKind.standard⟩]).getD "") "Widget" 2 5
      3).quantity_in_stock = 3 ∧
    (insert_payload ((get_seller_id_from_room
      [⟨"seller1", PKind.standard⟩]).getD "") "Widget" 2 5 3).seller_id =
      (get_seller_id_from_room [⟨"seller1", PKind.standard⟩]).getD "" ∧
    (insert_payload ((get_seller_id_from_room
      [⟨"seller1", PKind.standard⟩]).getD "") "Widget" 2 5 3).image = "" ∧
    (insert_payload ((get_seller_id_from_room
      [⟨"seller1", PKind.standard⟩]).getD "") "Widget" 2 5 3).description =
      "Widget" ++ " - added via voice" ∧
    (insert_payload ((get_seller_id_from_room
      [⟨"seller1", PKind.standard⟩]).getD "") "Widget" 2 5 3).images = [] ∧
    (insert_payload ((get_seller_id_from_room
      [⟨"seller1", PKind.standard⟩]).getD "") "Widget" 2 5 3).colors = [] ∧
    (insert_payload ((get_seller_id_from_room
      [⟨"seller1", PKind.standard⟩]).getD "") "Widget" 2 5 3).sizes = [] ∧
    (insert_payload ((get_seller_id_from_room
      [⟨"seller1", PKind.standard⟩]).getD "") "Widget" 2 5 3).variants =
      [] :=
  create_product_payload_fields ⟨none, none⟩ [⟨"seller1", PKind.standard⟩]
    (HttpResponse.success (InsertBody.obj [("id", "p1")])) "Widget" 2 5 3
    (by decide)

/-- Claim C6, counterexample: with a product created in this session under
the empty name (state `⟨some "p0", some ""⟩`), the RPC payload sent carries
the fallback name "Product", not the last created product's name "". -/
theorem add_product_to_show_fallback_counterexample :
    (add_product_to_show ⟨some "p0", some ""⟩ [⟨"host", PKind.standard⟩]
      "p0" (RpcOutcome.ok "done")).rpcCalls =
      [⟨"host", "addProductToShow", json_dumps_product "p0" "Product", 10⟩] ∧
    json_dumps_product "p0" "Product" ≠ json_dumps_product "p0" "" :=
  ⟨by decide, by decide⟩

/-- Claim C6, amended: when a broadcaster is resolved and the RPC succeeds,
`add_product_to_show` returns a string beginning with
"Product added to the live show carousel." and issues exactly one RPC whose
payload is the JSON object with keys productId (the given id) and name —
the last created product's name when that is a non-empty string, and the
literal fallback "Product" when no product was created in this session or
the stored name is empty (Python `or` treats "" as falsy). -/
theorem add_product_to_show_success (st : AgentState)
    (room : List RemoteParticipant) (product_id response : String)
    (hb : strOptFalsy (find_broadcaster_identity room) = false) :
    strStartsWith (add_product_to_show st room product_id
      (RpcOutcome.ok response)).reply
      "Product added to the live show carousel." ∧
    (add_product_to_show st room product_id
      (RpcOutcome.ok response)).rpcCalls =
      [{ destination_identity := (find_broadcaster_identity room).getD ""
         method := "addProductToShow"
         payload := json_dumps_product product_id
           (py_or_string st.last_product_name "Product")
         response_timeout := 10 }] := by
  have hres : add_product_to_show st room product_id
      (RpcOutcome.ok response) =
      { reply := "Product added to the live show carousel. " ++ response
        state := st
        rpcCalls :=
          [{ destination_identity := (find_broadcaster_identity room).getD ""
             method := "addProductToShow"
             payload := json_dumps_product product_id
               (py_or_string st.last_product_name "Product")
             response_timeout := 10 }] } := by
    simp [add_product_to_show, hb]
  rw [hres]
  exact ⟨strStartsWith_append "Product added to the live show carousel. "
    "Product added to the live show carousel." response ⟨[' '], by decide⟩,
    rfl⟩

theorem add_product_to_show_success_witness :
    strStartsWith (add_product_to_show ⟨some "p1", some "Widget"⟩
      [⟨"host", PKind.standard⟩] "p1" (RpcOutcome.ok "added")).reply
      "Product added to the live show carousel." ∧
    (add_product_to_show ⟨some "p1", some "Widget"⟩
      [⟨"host", PKind.standard⟩] "p1" (RpcOutcome.ok "added")).rpcCalls =
      [{ destination_identity :=
           (find_broadcaster_identity [⟨"host", PKind.standard⟩]).getD ""
         method := "addProductToShow"
         payload := json_dumps_product "p1"
           (py_or_string (some "Widget") "Product")
         response_timeout := 10 }] :=
  add_product_to_show_success ⟨some "p1", some "Widget"⟩
    [⟨"host", PKind.standard⟩] "p1" "added" (by decide)

/-- Claim C7: in a room with no non-agent remote participant,
`add_product_to_show` returns exactly
"Error: No broadcaster found in the room." and issues no RPC. -/
theorem add_product_to_show_no_broadcaster (st : AgentState)
    (room : List RemoteParticipant) (product_id : String) (rpc : RpcOutcome)
    (hroom : ∀ p ∈ room, p.kind = PKind.agent) :
    (add_product_to_show st room product_id rpc).reply =
      "Error: No broadcaster found in the room." ∧
    (add_product_to_show st room product_id rpc).rpcCalls = [] := by
  have hn : find_broadcaster_identity room = none :=
    broadcaster_none_of_all_agents room hroom
  simp [add_product_to_show, hn, strOptFalsy]

theorem add_product_to_show_no_broadcaster_witness :
    (add_product_to_show ⟨none, none⟩ [⟨"agent-1", PKind.agent⟩] "p1"
      (RpcOutcome.ok "added")).reply =
      "Error: No broadcaster found in the room." ∧
    (add_product_to_show ⟨none, none⟩ [⟨"agent-1", PKind.agent⟩] "p1"
      (RpcOutcome.ok "added")).rpcCalls = [] :=
  add_product_to_show_no_broadcaster ⟨none, none⟩ [⟨"agent-1", PKind.agent⟩]
    "p1" (RpcOutcome.ok "added") (by simp)

/-- Claim C8: every invocation that reaches the RPC issues exactly one call
with a fixed response timeout of 10 seconds (no retry, on success or on
failure), and if the RPC fails or times out the returned string begins with
"Error adding product to show:". -/
theorem add_product_to_show_timeout_no_retry (st : AgentState)
    (room : List RemoteParticipant) (product_id response detail : String)
    (hb : strOptFalsy (find_broadcaster_identity room) = false) :
    (add_product_to_show st room product_id
      (RpcOutcome.ok response)).rpcCalls.map RpcCall.response_timeout =
      [10] ∧
    (add_product_to_show st room product_id
      (RpcOutcome.error detail)).rpcCalls.map RpcCall.response_timeout =
      [10] ∧
    strStartsWith (add_product_to_show st room product_id
      (RpcOutcome.error detail)).reply "Error adding product to show:" := by
  have hres : add_product_to_show st room product_id
      (RpcOutcome.error detail) =
      { reply := "Error adding product to show: " ++ detail
        state := st
        rpcCalls :=
          [{ destination_identity := (find_broadcaster_identity room).getD ""
             method := "addProductToShow"
             payload := json_dumps_product product_id
               (py_or_string st.last_product_name "Product")
             response_timeout := 10 }] } := by
    simp [add_product_to_show, hb]
  refine ⟨by simp [add_product_to_show, hb], by rw [hres]; rfl, ?_⟩
  rw [hres]
  exact strStartsWith_append "Error adding product to show: "
    "Error adding product to show:" detail ⟨[' '], by decide⟩

theorem add_product_to_show_timeout_no_retry_witness :
    (add_product_to_show ⟨some "p1", some "Widget"⟩
      [⟨"host", PKind.standard⟩] "p1"
      (RpcOutcome.ok "added")).rpcCalls.map RpcCall.response_timeout =
      [10] ∧
    (add_product_to_show ⟨some "p1", some "Widget"⟩
      [⟨"host", PKind.standard⟩] "p1"
      (RpcOutcome.error "RPC response timeout")).rpcCalls.map
      RpcCall.response_timeout = [10] ∧
    strStartsWith (add_product_to_show ⟨some "p1", some "Widget"⟩
      [⟨"host", PKind.standard⟩] "p1"
      (RpcOutcome.error "RPC response timeout")).reply
      "Error adding product to show:" :=
  add_product_to_show_timeout_no_retry ⟨some "p1", some "Widget"⟩
    [⟨"host", PKind.standard⟩] "p1" "added" "RPC response timeout"
    (by decide)

/-- Claim C9: `add_product_to_show` never changes the session-local fields
`last_product_id`/`last_product_name`, on the success path and on every
failure path. -/
theorem add_product_to_show_preserves_state (st : AgentState)
    (room : List RemoteParticipant) (product_id : String)
    (rpc : RpcOutcome) :
    (add_product_to_show st room product_id rpc).state = st := by
  by_cases hb : strOptFalsy (find_broadcaster_identity room) = true
  · simp [add_product_to_show, hb]
  · have hb' : strOptFalsy (find_broadcaster_identity room) = false := by
      simpa using hb
    cases rpc <;> simp [add_product_to_show, hb']

/-- Claim C10: over any fixed snapshot of the room's remote participants,
the seller lookup of `create_product` and the broadcaster scan of
`add_product_to_show` agree, and both return the identity of the first
participant in iteration order whose kind is not agent (`none` when no such
participant exists). -/
theorem seller_eq_broadcaster_lookup (room : List RemoteParticipant) :
    get_seller_id_from_room room = find_broadcaster_identity room ∧
    get_seller_id_from_room room =
      (room.find? (fun p => decide (p.kind ≠ PKind.agent))).map
        RemoteParticipant.identity := by
  induction room with
  | nil => exact ⟨rfl, rfl⟩
  | cons p rest ih =>
    cases hk : p.kind <;>
      simp [get_seller_id_from_room, find_broadcaster_identity, List.find?,
        hk, ← ih.1, ih.2]
